import Mathlib

/-!
# sentry-assign: a webhook relay that assigns Sentry issues to a default user

A shallow embedding of `main.go` and the properties of its two handlers and
of its startup check.

Go strings are modelled as Lean `String`s (Unicode text), readers (a request
body, an opened file) as the text they deliver, and the effects of the
handlers (log lines, outbound requests, captured messages, the response
writer) as explicit state.

The first part models the pieces of `encoding/json` the program calls:
`Decoder.Decode` into a struct of string fields and into `map[string]string`.
-/

set_option autoImplicit false

namespace SentryAssign

/-! ## encoding/json: scanning -/

/-- One piece of a string literal: a character, or a `\uXXXX` escape. -/
inductive StrItem where
  | chr (c : Char)
  | u16 (n : Nat)
  deriving Repr, DecidableEq

/-- Is `n` a UTF-16 high surrogate. -/
def isHighSurrogate (n : Nat) : Bool := 0xD800 ≤ n && n < 0xDC00

/-- Is `n` a UTF-16 low surrogate. -/
def isLowSurrogate (n : Nat) : Bool := 0xDC00 ≤ n && n < 0xE000

/-- The replacement character U+FFFD. -/
def replacementChar : Char := Char.ofNat 0xFFFD

/-- The character of a `\uXXXX` escape standing alone: a lone surrogate is
replaced by U+FFFD. -/
def unitChar (n : Nat) : Char :=
  if isHighSurrogate n || isLowSurrogate n then replacementChar else Char.ofNat n

/-- The character of a surrogate pair. -/
def pairChar (hi lo : Nat) : Char :=
  Char.ofNat (0x10000 + (hi - 0xD800) * 0x400 + (lo - 0xDC00))

/-- The text of a string literal (`unquote`): two `\u` escapes in a row that form
a surrogate pair give one character, a surrogate without partner gives U+FFFD.
`pending` is a high surrogate read just before. -/
def unquoteAux : Option Nat → List StrItem → List Char
  | none, [] => []
  | some _, [] => [replacementChar]
  | none, .chr c :: rest => c :: unquoteAux none rest
  | some _, .chr c :: rest => replacementChar :: c :: unquoteAux none rest
  | none, .u16 n :: rest =>
      if isHighSurrogate n then unquoteAux (some n) rest
      else unitChar n :: unquoteAux none rest
  | some hi, .u16 n :: rest =>
      if isLowSurrogate n then pairChar hi n :: unquoteAux none rest
      else if isHighSurrogate n then replacementChar :: unquoteAux (some n) rest
      else replacementChar :: unitChar n :: unquoteAux none rest

/-- The text of a string literal. -/
def unquote (items : List StrItem) : String := String.mk (unquoteAux none items)

/-- Tokens of a JSON text. `bad` stands where the scanner stops: at a character
no token can contain, or at the end of the input inside a token. -/
inductive Tok where
  | lbrace | rbrace | lbrack | rbrack | colon | comma
  | str (s : String)
  | num
  | tTrue | tFalse | tNull
  | bad
  deriving Repr, DecidableEq

/-- Where the scanner stands inside the input. -/
inductive LexState where
  | top
  | inStr (acc : List StrItem)
  | esc (acc : List StrItem)
  | hex (acc : List StrItem) (left : Nat) (v : Nat)
  | lit (rest : List Char) (t : Tok)
  | numNeg | numZero | numInt | numDot | numFrac | numE | numESign | numExp
  deriving Repr

/-- JSON white space: space, tab, carriage return, line feed. -/
def isSpace (c : Char) : Bool :=
  c.toNat == 32 || c.toNat == 9 || c.toNat == 13 || c.toNat == 10

/-- Decimal digit. -/
def isDigit (c : Char) : Bool := 48 ≤ c.toNat && c.toNat ≤ 57

/-- Value of a hexadecimal digit. -/
def hexVal (c : Char) : Option Nat :=
  let n := c.toNat
  if 48 ≤ n && n ≤ 57 then some (n - 48)
  else if 97 ≤ n && n ≤ 102 then some (n - 87)
  else if 65 ≤ n && n ≤ 70 then some (n - 55)
  else none

/-- The scanner at a character that starts a token (or is white space):
the tokens given out and the next state, `none` when scanning stops. -/
def beginTok (c : Char) : List Tok × Option LexState :=
  let n := c.toNat
  if isSpace c then ([], some .top)
  else if n == 123 then ([.lbrace], some .top)
  else if n == 125 then ([.rbrace], some .top)
  else if n == 91 then ([.lbrack], some .top)
  else if n == 93 then ([.rbrack], some .top)
  else if n == 58 then ([.colon], some .top)
  else if n == 44 then ([.comma], some .top)
  else if n == 34 then ([], some (.inStr []))
  else if n == 45 then ([], some .numNeg)
  else if n == 48 then ([], some .numZero)
  else if isDigit c then ([], some .numInt)
  else if n == 116 then ([], some (.lit [Char.ofNat 114, Char.ofNat 117, Char.ofNat 101] .tTrue))
  else if n == 102 then
    ([], some (.lit [Char.ofNat 97, Char.ofNat 108, Char.ofNat 115, Char.ofNat 101] .tFalse))
  else if n == 110 then ([], some (.lit [Char.ofNat 117, Char.ofNat 108, Char.ofNat 108] .tNull))
  else ([.bad], none)

/-- A number ends before `c`: the number token, then `c` starts the next token. -/
def endNum (c : Char) : List Tok × Option LexState :=
  (Tok.num :: (beginTok c).1, (beginTok c).2)

/-- One step of the scanner: tokens given out, and the next state. -/
def lexStep : LexState → Char → List Tok × Option LexState
  | .top, c => beginTok c
  | .inStr acc, c =>
      if c.toNat == 34 then ([.str (unquote acc)], some .top)
      else if c.toNat == 92 then ([], some (.esc acc))
      else if c.toNat < 32 then ([.bad], none)
      else ([], some (.inStr (acc ++ [.chr c])))
  | .esc acc, c =>
      let n := c.toNat
      if n == 34 || n == 92 || n == 47 then ([], some (.inStr (acc ++ [.chr c])))
      else if n == 98 then ([], some (.inStr (acc ++ [.chr (Char.ofNat 8)])))
      else if n == 102 then ([], some (.inStr (acc ++ [.chr (Char.ofNat 12)])))
      else if n == 110 then ([], some (.inStr (acc ++ [.chr (Char.ofNat 10)])))
      else if n == 114 then ([], some (.inStr (acc ++ [.chr (Char.ofNat 13)])))
      else if n == 116 then ([], some (.inStr (acc ++ [.chr (Char.ofNat 9)])))
      else if n == 117 then ([], some (.hex acc 4 0))
      else ([.bad], none)
  | .hex acc left v, c =>
      match hexVal c with
      | none => ([.bad], none)
      | some d =>
          if left ≤ 1 then ([], some (.inStr (acc ++ [.u16 (v * 16 + d)])))
          else ([], some (.hex acc (left - 1) (v * 16 + d)))
  | .lit [] _, _ => ([.bad], none)
  | .lit (r :: rest) t, c =>
      if c = r then
        match rest with
        | [] => ([t], some .top)
        | _ :: _ => ([], some (.lit rest t))
      else ([.bad], none)
  | .numNeg, c =>
      if c.toNat == 48 then ([], some .numZero)
      else if isDigit c then ([], some .numInt)
      else ([.bad], none)
  | .numZero, c =>
      if c.toNat == 46 then ([], some .numDot)
      else if c.toNat == 101 || c.toNat == 69 then ([], some .numE)
      else endNum c
  | .numInt, c =>
      if isDigit c then ([], some .numInt)
      else if c.toNat == 46 then ([], some .numDot)
      else if c.toNat == 101 || c.toNat == 69 then ([], some .numE)
      else endNum c
  | .numDot, c => if isDigit c then ([], some .numFrac) else ([.bad], none)
  | .numFrac, c =>
      if isDigit c then ([], some .numFrac)
      else if c.toNat == 101 || c.toNat == 69 then ([], some .numE)
      else endNum c
  | .numE, c =>
      if c.toNat == 43 || c.toNat == 45 then ([], some .numESign)
      else if isDigit c then ([], some .numExp)
      else ([.bad], none)
  | .numESign, c => if isDigit c then ([], some .numExp) else ([.bad], none)
  | .numExp, c => if isDigit c then ([], some .numExp) else endNum c

/-- The scanner at the end of the input. -/
def lexEnd : LexState → List Tok
  | .top => []
  | .numZero => [.num]
  | .numInt => [.num]
  | .numFrac => [.num]
  | .numExp => [.num]
  | _ => [.bad]

/-- The tokens of an input, up to the place where the scanner stops. -/
def lex : LexState → List Char → List Tok
  | st, [] => lexEnd st
  | st, c :: cs =>
      match lexStep st c with
      | (out, some st') => out ++ lex st' cs
      | (out, none) => out

/-! ## encoding/json: values -/

/-- A JSON value. Numbers are scanned but their value is not kept: the program
decodes strings only. -/
inductive JValue where
  | null
  | bool (b : Bool)
  | num
  | str (s : String)
  | arr (xs : List JValue)
  | obj (kvs : List (String × JValue))
  deriving Repr

/-- An open container on the parse stack. -/
inductive Frame where
  | arr (done : List JValue)
  | obj (done : List (String × JValue))
  | member (done : List (String × JValue)) (key : String)
  deriving Repr

/-- What the scanner accepts next. -/
inductive Expect where
  | value | valueOrClose | key | keyOrClose | colon | sepOrClose
  deriving Repr, DecidableEq

/-- Result of feeding one token. -/
inductive Step where
  | more (stack : List Frame) (e : Expect)
  | done (v : JValue)
  | fail
  deriving Repr

/-- A finished value goes into the enclosing container, or is the result. -/
def finish (v : JValue) : List Frame → Step
  | [] => .done v
  | .arr done :: st => .more (.arr (done ++ [v]) :: st) .sepOrClose
  | .member done k :: st => .more (.obj (done ++ [(k, v)]) :: st) .sepOrClose
  | .obj _ :: _ => .fail

/-- The deepest nesting of arrays and objects the scanner accepts. -/
def maxNestingDepth : Nat := 10000

/-- Open a container: an error when the nesting gets deeper than
`maxNestingDepth`. -/
def push (f : Frame) (st : List Frame) (e : Expect) : Step :=
  if st.length + 1 ≤ maxNestingDepth then .more (f :: st) e else .fail

/-- A token where a value may start. -/
def startValue (st : List Frame) : Tok → Step
  | .lbrace => push (.obj []) st .keyOrClose
  | .lbrack => push (.arr []) st .valueOrClose
  | .str s => finish (.str s) st
  | .num => finish .num st
  | .tTrue => finish (.bool true) st
  | .tFalse => finish (.bool false) st
  | .tNull => finish .null st
  | _ => .fail

/-- Feed one token to the parser. -/
def step (st : List Frame) (e : Expect) (t : Tok) : Step :=
  match e, t, st with
  | .value, t, st => startValue st t
  | .valueOrClose, .rbrack, .arr done :: st => finish (.arr done) st
  | .valueOrClose, t, st => startValue st t
  | .key, .str k, .obj done :: st => .more (.member done k :: st) .colon
  | .keyOrClose, .str k, .obj done :: st => .more (.member done k :: st) .colon
  | .keyOrClose, .rbrace, .obj done :: st => finish (.obj done) st
  | .colon, .colon, st => .more st .value
  | .sepOrClose, .comma, .arr done :: st => .more (.arr done :: st) .value
  | .sepOrClose, .comma, .obj done :: st => .more (.obj done :: st) .key
  | .sepOrClose, .rbrack, .arr done :: st => finish (.arr done) st
  | .sepOrClose, .rbrace, .obj done :: st => finish (.obj done) st
  | _, _, _ => .fail

/-- Read tokens until the first value is complete: the value and the tokens
left over, `none` on a syntax error or when the input ends too early. -/
def run : List Frame → Expect → List Tok → Option (JValue × List Tok)
  | _, _, [] => none
  | st, e, t :: ts =>
      match step st e t with
      | .more st' e' => run st' e' ts
      | .done v => some (v, ts)
      | .fail => none

/-- The first JSON value of the input, as `Decoder.Decode` reads it: leading
white space is skipped and what follows the value is not looked at. -/
def readValue (input : String) : Option JValue :=
  (run [] .value (lex .top input.toList)).map Prod.fst

/-- The input as one JSON text: one value with white space around it only. -/
def parseDocument (input : String) : Option JValue :=
  match run [] .value (lex .top input.toList) with
  | some (v, []) => some v
  | _ => none

/-! ## encoding/json: storing a value into the program's types -/

/-- A Go error value. The text of a decoding error is not modelled. -/
inductive GoError where
  | json
  | other (msg : String)
  deriving Repr, DecidableEq

/-- The record `IssueInfo`: the payload of a webhook from Sentry. -/
structure IssueInfo where
  ID : String
  Project : String
  deriving Repr, DecidableEq

/-- The record `TestEvent`. -/
structure TestEvent where
  Culprit : String
  deriving Repr, DecidableEq

/-- Does the object key `key` name the struct field tagged `name`. The decoder
takes the exact name, else a name equal under case folding; the tags of this
program (`id`, `project`, `culprit`) are lower-case ASCII letters other than
`k` and `s`, for which folding is the folding of ASCII letters. -/
def fieldMatch (name key : String) : Bool :=
  key.toList.map Char.toLower == name.toList

/-- Store a JSON value into a Go string: a string is stored, `null` leaves the
old value, anything else leaves the old value and is a type error (`false`). -/
def storeString (old : String) : JValue → String × Bool
  | .str s => (s, true)
  | .null => (old, true)
  | _ => (old, false)

/-- Store one object member into an `IssueInfo`. -/
def setIssueField (acc : IssueInfo × Bool) (kv : String × JValue) : IssueInfo × Bool :=
  if fieldMatch "id" kv.1 then
    ({ acc.1 with ID := (storeString acc.1.ID kv.2).1 }, acc.2 && (storeString acc.1.ID kv.2).2)
  else if fieldMatch "project" kv.1 then
    ({ acc.1 with Project := (storeString acc.1.Project kv.2).1 },
      acc.2 && (storeString acc.1.Project kv.2).2)
  else acc

/-- Store a JSON value into an `IssueInfo`; `false` when a type error was met
(decoding goes on after a type error and reports it at the end). -/
def unmarshalIssueInfo (i : IssueInfo) : JValue → IssueInfo × Bool
  | .null => (i, true)
  | .obj kvs => kvs.foldl setIssueField (i, true)
  | _ => (i, false)

/-- Store one object member into a `TestEvent`. -/
def setTestEventField (acc : TestEvent × Bool) (kv : String × JValue) : TestEvent × Bool :=
  if fieldMatch "culprit" kv.1 then
    ({ Culprit := (storeString acc.1.Culprit kv.2).1 },
      acc.2 && (storeString acc.1.Culprit kv.2).2)
  else acc

/-- Store a JSON value into a `TestEvent`. -/
def unmarshalTestEvent (t : TestEvent) : JValue → TestEvent × Bool
  | .null => (t, true)
  | .obj kvs => kvs.foldl setTestEventField (t, true)
  | _ => (t, false)

/-- Go's `m[k] = v` on a map kept as a list of pairs with distinct keys. -/
def mapSet : List (String × String) → String → String → List (String × String)
  | [], k, v => [(k, v)]
  | (k', v') :: rest, k, v =>
      if k' = k then (k, v) :: rest else (k', v') :: mapSet rest k v

/-- Go's `v, ok := m[k]`: the value under `k` and `true`, or the empty string and
`false` when `k` is not a key. -/
def mapIndex (m : List (String × String)) (k : String) : String × Bool :=
  match m.lookup k with
  | some v => (v, true)
  | none => ("", false)

/-- Store one object member into a `map[string]string`: the element starts as
the empty string, a string is stored, `null` leaves it empty, anything else
leaves it empty and is a type error; the element is put into the map in each
case. -/
def setMapEntry (acc : List (String × String) × Bool) (kv : String × JValue) :
    List (String × String) × Bool :=
  (mapSet acc.1 kv.1 (storeString "" kv.2).1, acc.2 && (storeString "" kv.2).2)

/-- Store a JSON value into a `map[string]string`: `null` makes the map nil (no
keys), an object adds its members to the map. -/
def unmarshalMap (m : List (String × String)) : JValue → List (String × String) × Bool
  | .null => ([], true)
  | .obj kvs => kvs.foldl setMapEntry (m, true)
  | _ => (m, false)

/-- The call `json.NewDecoder(r).Decode(&i)` for an `IssueInfo`: the value of
`i` after the call and the error returned. -/
def decodeIssueInfo (input : String) (i : IssueInfo) : IssueInfo × Option GoError :=
  match readValue input with
  | none => (i, some .json)
  | some v =>
      if (unmarshalIssueInfo i v).2 then ((unmarshalIssueInfo i v).1, none)
      else ((unmarshalIssueInfo i v).1, some .json)

/-- The call `json.NewDecoder(r).Decode(&t)` for a `TestEvent`. -/
def decodeTestEvent (input : String) (t : TestEvent) : TestEvent × Option GoError :=
  match readValue input with
  | none => (t, some .json)
  | some v =>
      if (unmarshalTestEvent t v).2 then ((unmarshalTestEvent t v).1, none)
      else ((unmarshalTestEvent t v).1, some .json)

/-- The call `json.NewDecoder(f).Decode(&projectToUserMap)`. -/
def decodeMap (input : String) (m : List (String × String)) :
    List (String × String) × Option GoError :=
  match readValue input with
  | none => (m, some .json)
  | some v =>
      if (unmarshalMap m v).2 then ((unmarshalMap m v).1, none)
      else ((unmarshalMap m v).1, some .json)

/-! ## The program state -/

/-- The command-line flags, after `flag.Parse`. -/
structure Flags where
  apiToken : String
  assignmentMappingsLoc : String
  bindAddr : String
  sentryDSN : String
  deriving Repr, DecidableEq

/-- The flags when the command line sets none. -/
def defaultFlags : Flags :=
  { apiToken := "", assignmentMappingsLoc := "./assignments.json", bindAddr := ":18091",
    sentryDSN := "" }

/-- Log level of a logrus call. -/
inductive Level where
  | info
  | error
  deriving Repr, DecidableEq

/-- An argument of a logrus call. -/
inductive LogArg where
  | str (s : String)
  | err (e : GoError)
  | errs (es : List GoError)
  | int (n : Int)
  deriving Repr, DecidableEq

/-- One logrus call: its level and its arguments. -/
structure LogEntry where
  level : Level
  args : List LogArg
  deriving Repr, DecidableEq

/-- A request built with gorequest, as it stands when `End` is called. `body` is
the string handed to `Send`. -/
structure OutboundRequest where
  method : String
  url : String
  headers : List (String × String)
  body : String
  deriving Repr, DecidableEq

/-- The part of `*http.Response` the program reads. -/
structure Response where
  StatusCode : Int
  deriving Repr, DecidableEq

/-- What `End` returns. gorequest returns a nil response exactly when `errs` is
not empty, and the program reads the response only when `errs` is empty, so
`resp` is the response when there is one and is not looked at otherwise. -/
structure EndResult where
  resp : Response
  errs : List GoError
  deriving Repr, DecidableEq

/-- The process state the program reads and writes: the global
`projectToUserMap`, and the effects on the world outside. -/
structure State where
  projectToUserMap : List (String × String)
  log : List LogEntry
  requests : List OutboundRequest
  captured : List String
  opened : List String
  ravenDSN : Option String
  served : List String
  deriving Repr, DecidableEq

/-- The state at process start: `projectToUserMap = make(map[string]string)`. -/
def State.init : State :=
  { projectToUserMap := [], log := [], requests := [], captured := [], opened := [],
    ravenDSN := none, served := [] }

/-- The call `logrus.Error(args...)`. -/
def State.logError (s : State) (args : List LogArg) : State :=
  { s with log := s.log ++ [{ level := .error, args := args }] }

/-- The call `logrus.Info(args...)`. -/
def State.logInfo (s : State) (args : List LogArg) : State :=
  { s with log := s.log ++ [{ level := .info, args := args }] }

/-- An `http.ResponseWriter`: the status code written, if any, and the body
bytes written. -/
structure ResponseWriter where
  status : Option Nat
  body : String
  deriving Repr, DecidableEq

/-- The writer a handler is called with. -/
def ResponseWriter.fresh : ResponseWriter := { status := none, body := "" }

/-- The call `w.WriteHeader(code)`: the first call sets the status. -/
def ResponseWriter.WriteHeader (w : ResponseWriter) (code : Nat) : ResponseWriter :=
  match w.status with
  | none => { w with status := some code }
  | some _ => w

/-- The status `http.StatusOK`. -/
def StatusOK : Nat := 200

/-- The status `http.StatusBadRequest`. -/
def StatusBadRequest : Nat := 400

/-! ## gorequest and raven -/

/-- The call `gorequest.New()`. -/
def gorequestNew : OutboundRequest := { method := "", url := "", headers := [], body := "" }

/-- The call `.Put(url)`. -/
def OutboundRequest.Put (a : OutboundRequest) (url : String) : OutboundRequest :=
  { a with method := "PUT", url := url }

/-- The call `.Set(name, value)`. -/
def OutboundRequest.Set (a : OutboundRequest) (name value : String) : OutboundRequest :=
  { a with headers := mapSet a.headers name value }

/-- The call `.Send(content)` with a string. -/
def OutboundRequest.Send (a : OutboundRequest) (content : String) : OutboundRequest :=
  { a with body := content }

/-- The call `.End()`: the request goes out, and the world answers with `out`. -/
def OutboundRequest.End (a : OutboundRequest) (out : EndResult) (s : State) :
    State × EndResult :=
  ({ s with requests := s.requests ++ [a] }, out)

/-- The call `raven.CaptureMessage(message, nil)`. -/
def CaptureMessage (message : String) (s : State) : State :=
  { s with captured := s.captured ++ [message] }

/-- The call `raven.SetDSN(dsn)`. -/
def SetDSN (dsn : String) (s : State) : State :=
  { s with ravenDSN := some dsn }

/-! ## main.go -/

/-- `validStartup`: checks that the program has what it needs to run; logs what
is missing. `fs` is the file system as `os.Open` sees it: the text of the file
at a path, or the error of opening it; `opened` records the paths handed to
`os.Open`. The test `len(x) == 0` of a Go string is `x.length == 0`: each says
that the string is empty. -/
def validStartup (flags : Flags) (fs : String → Except GoError String) (s : State) :
    Bool × State :=
  if flags.sentryDSN.length == 0 then
    (false, s.logError [.str "must provide a Sentry DSN"])
  else if flags.apiToken.length == 0 then
    (false, s.logError [.str "must provide a Sentry API token"])
  else
    match fs flags.assignmentMappingsLoc with
    | .error err =>
        (false, State.logError { s with opened := s.opened ++ [flags.assignmentMappingsLoc] }
          [.str "no project -> user mapping: ", .err err])
    | .ok f =>
        match decodeMap f s.projectToUserMap with
        | (m, some err) =>
            (false, State.logError { s with opened := s.opened ++ [flags.assignmentMappingsLoc],
                                            projectToUserMap := m }
              [.str "failed to parse project -> user mapping: ", .err err])
        | (m, none) =>
            (true, SetDSN flags.sentryDSN
              { s with opened := s.opened ++ [flags.assignmentMappingsLoc],
                       projectToUserMap := m })

/-- `main`, up to the return of `http.ListenAndServe`, which gives `serveErr`
when the server exits. `served` records the calls of `ListenAndServe`. -/
def main (flags : Flags) (fs : String → Except GoError String) (serveErr : GoError)
    (s : State) : State :=
  if !(validStartup flags fs s).1 then (validStartup flags fs s).2
  else
    State.logError
      { State.logInfo (validStartup flags fs s).2
          [.str ("Listening on " ++ flags.bindAddr ++ "...")] with
        served := (validStartup flags fs s).2.served ++ [flags.bindAddr] }
      [.str "Server exited: ", .err serveErr]

/-- `handleEvents`: handles a webhook event from Sentry. `body` is the request
body, `out` what the outbound call returns if it is made. -/
def handleEvents (flags : Flags) (out : EndResult) (body : String) (w : ResponseWriter)
    (s : State) : ResponseWriter × State :=
  match decodeIssueInfo body { ID := "", Project := "" } with
  | (_, some err) =>
      (w.WriteHeader StatusOK,
        s.logError [.str "failed to read request body from Sentry: ", .err err])
  | (i, none) =>
      match mapIndex s.projectToUserMap i.Project with
      | (username, false) =>
          (w.WriteHeader StatusOK,
            s.logError [.str "no default assignee for the %s project", .str username])
      | (username, true) =>
          let r := (((gorequestNew.Put ("https://sentry.io/api/0/issues/" ++ i.ID ++ "/")).Set
            "Authorization" ("Bearer " ++ flags.apiToken)).Send
            ("\x7b\"assignedTo\":\"" ++ username ++ "\"\x7d")).End out s
          if r.2.errs.length != 0 then
            (w.WriteHeader StatusOK,
              r.1.logError [.str "failed to assign event to user:", .errs r.2.errs])
          else if r.2.resp.StatusCode != 200 then
            (w.WriteHeader StatusOK,
              r.1.logError [.str "received non-zero status from Sentry: ",
                .int r.2.resp.StatusCode])
          else (w.WriteHeader StatusOK, r.1)

/-- `fireEvent`: fires a test event with the given culprit. -/
def fireEvent (body : String) (w : ResponseWriter) (s : State) : ResponseWriter × State :=
  match decodeTestEvent body { Culprit := "" } with
  | (_, some err) =>
      (w.WriteHeader StatusBadRequest,
        s.logError [.str "failed to decode test event information: ", .err err])
  | (t, none) =>
      (w.WriteHeader StatusOK,
        CaptureMessage t.Culprit (s.logInfo [.str "sending event to Sentry: ", .str t.Culprit]))

/-! ## Terms used in the statements -/

/-- The request `handleEvents` builds for issue `id`, assignee `a` and token `t`. -/
def assignRequest (id a t : String) : OutboundRequest :=
  { method := "PUT", url := "https://sentry.io/api/0/issues/" ++ id ++ "/",
    headers := [("Authorization", "Bearer " ++ t)],
    body := "\x7b\"assignedTo\":\"" ++ a ++ "\"\x7d" }

/-- A state and a body for the examples: one project with its assignee. -/
def exampleState : State :=
  { State.init with projectToUserMap := [("sentry-bot", "name@domain.com")] }

/-- Flags for the examples. -/
def exampleFlags : Flags := { defaultFlags with apiToken := "tok", sentryDSN := "dsn" }

/-- A webhook body for the examples. -/
def exampleBody : String := "\x7b\"id\":\"42\",\"project\":\"sentry-bot\"\x7d"

/-- The scanner run over a piece of input: the tokens given out and the state
reached, `none` when scanning stopped inside the piece. -/
def lexRun : LexState → List Char → List Tok × Option LexState
  | st, [] => ([], some st)
  | st, c :: cs =>
      match lexStep st c with
      | (out, some st') => (out ++ (lexRun st' cs).1, (lexRun st' cs).2)
      | (out, none) => (out, none)

/-- A state whose map assigns the project of `exampleBody` to `a`. -/
def stateAssigning (a : String) : State :=
  { State.init with projectToUserMap := [("sentry-bot", a)] }

/-! ## Lemmas on the map and on the handlers -/

theorem lookup_isSome_iff_mem_keys (m : List (String × String)) (k : String) :
    (m.lookup k).isSome = true ↔ k ∈ m.map Prod.fst := by
  induction m with
  | nil => simp
  | cons p rest ih =>
      obtain ⟨k', v'⟩ := p
      by_cases h : k = k'
      · subst h
        simp [List.lookup]
      · have h' : (k == k') = false := by simpa using h
        simp [List.lookup, h', ih, h]

theorem mapIndex_snd (m : List (String × String)) (k : String) :
    (mapIndex m k).2 = true ↔ k ∈ m.map Prod.fst := by
  rw [← lookup_isSome_iff_mem_keys]
  unfold mapIndex
  cases m.lookup k <;> simp

theorem mapIndex_of_lookup (m : List (String × String)) (k a : String)
    (h : m.lookup k = some a) : mapIndex m k = (a, true) := by
  simp [mapIndex, h]

theorem handleEvents_of_decode_error (flags : Flags) (out : EndResult) (body : String)
    (w : ResponseWriter) (s : State) (i : IssueInfo) (e : GoError)
    (h : decodeIssueInfo body { ID := "", Project := "" } = (i, some e)) :
    handleEvents flags out body w s =
      (w.WriteHeader StatusOK,
        s.logError [.str "failed to read request body from Sentry: ", .err e]) := by
  simp [handleEvents, h]

theorem handleEvents_of_miss (flags : Flags) (out : EndResult) (body : String)
    (w : ResponseWriter) (s : State) (i : IssueInfo) (u : String)
    (h : decodeIssueInfo body { ID := "", Project := "" } = (i, none))
    (hm : mapIndex s.projectToUserMap i.Project = (u, false)) :
    handleEvents flags out body w s =
      (w.WriteHeader StatusOK,
        s.logError [.str "no default assignee for the %s project", .str u]) := by
  simp [handleEvents, h, hm]

theorem handleEvents_of_hit (flags : Flags) (out : EndResult) (body : String)
    (w : ResponseWriter) (s : State) (i : IssueInfo) (a : String)
    (h : decodeIssueInfo body { ID := "", Project := "" } = (i, none))
    (hm : mapIndex s.projectToUserMap i.Project = (a, true)) :
    handleEvents flags out body w s =
      (w.WriteHeader StatusOK,
        { s with
          requests := s.requests ++ [assignRequest i.ID a flags.apiToken],
          log := s.log ++
            (if out.errs ≠ [] then
              [{ level := .error,
                 args := [.str "failed to assign event to user:", .errs out.errs] }]
            else if out.resp.StatusCode ≠ 200 then
              [{ level := .error,
                 args := [.str "received non-zero status from Sentry: ",
                   .int out.resp.StatusCode] }]
            else []) }) := by
  simp only [handleEvents, h, hm, OutboundRequest.End, OutboundRequest.Send,
    OutboundRequest.Set, OutboundRequest.Put, gorequestNew, mapSet, assignRequest,
    State.logError]
  by_cases he : out.errs = []
  · by_cases hs : out.resp.StatusCode = 200
    · simp [he, hs]
    · simp [he, hs]
  · simp [he]

theorem decodeIssueInfo_cases (body : String) :
    (∃ i e, decodeIssueInfo body { ID := "", Project := "" } = (i, some e)) ∨
    (∃ i, decodeIssueInfo body { ID := "", Project := "" } = (i, none)) := by
  rcases h : decodeIssueInfo body { ID := "", Project := "" } with ⟨i, _ | e⟩
  · exact Or.inr ⟨i, rfl⟩
  · exact Or.inl ⟨i, e, rfl⟩

theorem mapIndex_cases (m : List (String × String)) (k : String) :
    (∃ u, mapIndex m k = (u, false)) ∨ (∃ a, mapIndex m k = (a, true)) := by
  rcases h : mapIndex m k with ⟨u, _ | _⟩
  · exact Or.inl ⟨u, rfl⟩
  · exact Or.inr ⟨u, rfl⟩

/-- C1: whatever the request body, the assignment map and the outcome of the
outbound call, `handleEvents` writes status 200 and no body bytes. -/
theorem handleEvents_responds_200 (flags : Flags) (out : EndResult) (body : String)
    (s : State) :
    (handleEvents flags out body ResponseWriter.fresh s).1 = { status := some 200, body := "" } := by
  rcases decodeIssueInfo_cases body with ⟨i, e, h⟩ | ⟨i, h⟩
  · rw [handleEvents_of_decode_error flags out body _ s i e h]; rfl
  · rcases mapIndex_cases s.projectToUserMap i.Project with ⟨u, hm⟩ | ⟨a, hm⟩
    · rw [handleEvents_of_miss flags out body _ s i u h hm]; rfl
    · rw [handleEvents_of_hit flags out body _ s i a h hm]; rfl

/-- C2: `handleEvents` keeps the earlier outbound requests and adds exactly one
request, a PUT, when the body decodes and the decoded project is a key of the
assignment map; it adds none otherwise. -/
theorem handleEvents_put_count (flags : Flags) (out : EndResult) (body : String)
    (w : ResponseWriter) (s : State) :
    (handleEvents flags out body w s).2.requests.take s.requests.length = s.requests ∧
    ((handleEvents flags out body w s).2.requests.drop s.requests.length).map
        OutboundRequest.method =
      if (decodeIssueInfo body { ID := "", Project := "" }).2 = none ∧
          (decodeIssueInfo body { ID := "", Project := "" }).1.Project ∈
            s.projectToUserMap.map Prod.fst
      then ["PUT"] else [] := by
  rcases decodeIssueInfo_cases body with ⟨i, e, h⟩ | ⟨i, h⟩
  · rw [handleEvents_of_decode_error flags out body _ s i e h]
    simp [h, State.logError]
  · rcases mapIndex_cases s.projectToUserMap i.Project with ⟨u, hm⟩ | ⟨a, hm⟩
    · rw [handleEvents_of_miss flags out body _ s i u h hm]
      have hk : ¬ i.Project ∈ s.projectToUserMap.map Prod.fst := by
        rw [← mapIndex_snd, hm]; simp
      simp only [h, State.logError]
      rw [if_neg (fun hc => hk hc.2)]
      simp
    · rw [handleEvents_of_hit flags out body _ s i a h hm]
      have hk : i.Project ∈ s.projectToUserMap.map Prod.fst := by
        rw [← mapIndex_snd, hm]
      simp only [h]
      rw [if_pos ⟨trivial, hk⟩]
      simp [assignRequest]

/-- C3: for a body that decodes to `i` whose project maps to `a`, the request
`handleEvents` sends is a PUT to the issue URL of `i.ID`, with the bearer token in
the Authorization header and the body naming `a` as assignee. -/
theorem handleEvents_request (flags : Flags) (out : EndResult) (body : String)
    (w : ResponseWriter) (s : State) (i : IssueInfo) (a : String)
    (hdec : decodeIssueInfo body { ID := "", Project := "" } = (i, none))
    (hmap : s.projectToUserMap.lookup i.Project = some a) :
    (handleEvents flags out body w s).2.requests = s.requests ++
      [{ method := "PUT",
         url := "https://sentry.io/api/0/issues/" ++ i.ID ++ "/",
         headers := [("Authorization", "Bearer " ++ flags.apiToken)],
         body := "\x7b\"assignedTo\":\"" ++ a ++ "\"\x7d" }] := by
  rw [handleEvents_of_hit flags out body w s i a hdec (mapIndex_of_lookup _ _ _ hmap)]
  rfl

/-- The request of C3 on the example body: issue 42 of `sentry-bot`. -/
theorem handleEvents_request_witness :
    (handleEvents exampleFlags ⟨⟨200⟩, []⟩ exampleBody ResponseWriter.fresh exampleState).2.requests =
      [{ method := "PUT", url := "https://sentry.io/api/0/issues/42/",
         headers := [("Authorization", "Bearer tok")],
         body := "\x7b\"assignedTo\":\"name@domain.com\"\x7d" }] :=
  handleEvents_request exampleFlags ⟨⟨200⟩, []⟩ exampleBody ResponseWriter.fresh exampleState
    { ID := "42", Project := "sentry-bot" } "name@domain.com" (by decide) (by decide)

theorem length_eq_zero_iff (t : String) : (t.length == 0) = true ↔ t = "" := by
  rcases t with ⟨l⟩
  cases l with
  | nil => simp [String.length]
  | cons c cs =>
      simp [String.length]
      intro h
      have := congrArg String.data h
      simp at this

theorem handleEvents_projectToUserMap (flags : Flags) (out : EndResult) (body : String)
    (w : ResponseWriter) (s : State) :
    (handleEvents flags out body w s).2.projectToUserMap = s.projectToUserMap := by
  rcases decodeIssueInfo_cases body with ⟨i, e, h⟩ | ⟨i, h⟩
  · rw [handleEvents_of_decode_error flags out body _ s i e h]; rfl
  · rcases mapIndex_cases s.projectToUserMap i.Project with ⟨u, hm⟩ | ⟨a, hm⟩
    · rw [handleEvents_of_miss flags out body _ s i u h hm]; rfl
    · rw [handleEvents_of_hit flags out body _ s i a h hm]

theorem fireEvent_eq (body : String) (w : ResponseWriter) (s : State) :
    fireEvent body w s =
      if (decodeTestEvent body { Culprit := "" }).2 = none then
        (w.WriteHeader StatusOK,
          { s with
            log := s.log ++
              [{ level := .info,
                 args := [.str "sending event to Sentry: ",
                   .str (decodeTestEvent body { Culprit := "" }).1.Culprit] }],
            captured := s.captured ++ [(decodeTestEvent body { Culprit := "" }).1.Culprit] })
      else
        (w.WriteHeader StatusBadRequest,
          { s with
            log := s.log ++
              [{ level := .error,
                 args := [.str "failed to decode test event information: ",
                   .err GoError.json] }] }) := by
  unfold fireEvent
  rcases h : decodeTestEvent body { Culprit := "" } with ⟨t, _ | e⟩
  · simp [CaptureMessage, State.logInfo]
  · have he : e = GoError.json := by
      unfold decodeTestEvent at h
      split at h
      · simp at h; exact h.2.symm
      · split at h <;> simp at h
        exact h.2.symm
    simp [State.logError, he]

/-- C10: for a decoded, mapped notification the handler logs nothing exactly when
the transport reports no error and the status is 200; otherwise it logs one
assignment-failure error; in each case it makes one request and no second one. -/
theorem handleEvents_outcome (flags : Flags) (out : EndResult) (body : String)
    (w : ResponseWriter) (s : State) (i : IssueInfo) (a : String)
    (hdec : decodeIssueInfo body { ID := "", Project := "" } = (i, none))
    (hmap : s.projectToUserMap.lookup i.Project = some a) :
    ((handleEvents flags out body w s).2.log = s.log ↔
      out.errs = [] ∧ out.resp.StatusCode = 200) ∧
    (handleEvents flags out body w s).2.log = s.log ++
      (if out.errs ≠ [] then
        [{ level := .error, args := [.str "failed to assign event to user:", .errs out.errs] }]
      else if out.resp.StatusCode ≠ 200 then
        [{ level := .error,
           args := [.str "received non-zero status from Sentry: ", .int out.resp.StatusCode] }]
      else []) ∧
    (handleEvents flags out body w s).2.requests.length = s.requests.length + 1 := by
  rw [handleEvents_of_hit flags out body w s i a hdec (mapIndex_of_lookup _ _ _ hmap)]
  refine ⟨?_, rfl, by simp⟩
  by_cases he : out.errs = []
  · by_cases hs : out.resp.StatusCode = 200
    · simp [he, hs]
    · simp [he, hs]
  · simp [he]

/-- The outcome of C10 on the example body when Sentry answers 404. -/
theorem handleEvents_outcome_witness :
    (handleEvents exampleFlags ⟨⟨404⟩, []⟩ exampleBody ResponseWriter.fresh exampleState).2.log =
      [{ level := .error,
         args := [.str "received non-zero status from Sentry: ", .int 404] }] ∧
    (handleEvents exampleFlags ⟨⟨404⟩, []⟩ exampleBody
      ResponseWriter.fresh exampleState).2.requests.length = 1 :=
  ⟨(handleEvents_outcome exampleFlags ⟨⟨404⟩, []⟩ exampleBody ResponseWriter.fresh exampleState
      { ID := "42", Project := "sentry-bot" } "name@domain.com" (by decide) (by decide)).2.1,
   (handleEvents_outcome exampleFlags ⟨⟨404⟩, []⟩ exampleBody ResponseWriter.fresh exampleState
      { ID := "42", Project := "sentry-bot" } "name@domain.com" (by decide) (by decide)).2.2⟩

/-- C8: handling the same decodable, mapped payload twice in succession makes two
outbound requests, the second equal to the first, whatever the outcome of the
first and of the second. -/
theorem handleEvents_twice (flags : Flags) (out1 out2 : EndResult) (body : String)
    (w1 w2 : ResponseWriter) (s : State) (i : IssueInfo) (a : String)
    (hdec : decodeIssueInfo body { ID := "", Project := "" } = (i, none))
    (hmap : s.projectToUserMap.lookup i.Project = some a) :
    (handleEvents flags out2 body w2 (handleEvents flags out1 body w1 s).2).2.requests =
      s.requests ++
        [{ method := "PUT", url := "https://sentry.io/api/0/issues/" ++ i.ID ++ "/",
           headers := [("Authorization", "Bearer " ++ flags.apiToken)],
           body := "\x7b\"assignedTo\":\"" ++ a ++ "\"\x7d" },
         { method := "PUT", url := "https://sentry.io/api/0/issues/" ++ i.ID ++ "/",
           headers := [("Authorization", "Bearer " ++ flags.apiToken)],
           body := "\x7b\"assignedTo\":\"" ++ a ++ "\"\x7d" }] := by
  have hm2 : mapIndex (handleEvents flags out1 body w1 s).2.projectToUserMap i.Project =
      (a, true) := by
    rw [handleEvents_projectToUserMap]
    exact mapIndex_of_lookup _ _ _ hmap
  rw [handleEvents_of_hit flags out2 body w2 _ i a hdec hm2]
  rw [handleEvents_of_hit flags out1 body w1 s i a hdec (mapIndex_of_lookup _ _ _ hmap)]
  simp [assignRequest]

/-- The two requests of C8 on the example body, the first attempt failing. -/
theorem handleEvents_twice_witness :
    (handleEvents exampleFlags ⟨⟨200⟩, []⟩ exampleBody ResponseWriter.fresh
      (handleEvents exampleFlags ⟨⟨500⟩, [.other "timeout"]⟩ exampleBody ResponseWriter.fresh
        exampleState).2).2.requests =
      [{ method := "PUT", url := "https://sentry.io/api/0/issues/42/",
         headers := [("Authorization", "Bearer tok")],
         body := "\x7b\"assignedTo\":\"name@domain.com\"\x7d" },
       { method := "PUT", url := "https://sentry.io/api/0/issues/42/",
         headers := [("Authorization", "Bearer tok")],
         body := "\x7b\"assignedTo\":\"name@domain.com\"\x7d" }] :=
  handleEvents_twice exampleFlags ⟨⟨500⟩, [.other "timeout"]⟩ ⟨⟨200⟩, []⟩ exampleBody
    ResponseWriter.fresh ResponseWriter.fresh exampleState
    { ID := "42", Project := "sentry-bot" } "name@domain.com" (by decide) (by decide)

/-- C7: `fireEvent` answers 400 and captures nothing when the body does not decode
into a `TestEvent`; when it decodes, it answers 200 and captures exactly the
decoded culprit. The body `{"culprit":"test-alert"}` gives 200 and one capture
of `test-alert`. -/
theorem fireEvent_spec (body : String) (s : State) :
    (fireEvent body ResponseWriter.fresh s).1 =
      { status := some (if (decodeTestEvent body { Culprit := "" }).2 = none then 200 else 400),
        body := "" } ∧
    (fireEvent body ResponseWriter.fresh s).2.captured = s.captured ++
      (if (decodeTestEvent body { Culprit := "" }).2 = none
        then [(decodeTestEvent body { Culprit := "" }).1.Culprit] else []) ∧
    (fireEvent "\x7b\"culprit\":\"test-alert\"\x7d" ResponseWriter.fresh State.init).1.status =
      some 200 ∧
    (fireEvent "\x7b\"culprit\":\"test-alert\"\x7d" ResponseWriter.fresh State.init).2.captured =
      ["test-alert"] := by
  refine ⟨?_, ?_, by decide, by decide⟩
  · rw [fireEvent_eq]
    split <;> rfl
  · rw [fireEvent_eq]
    split <;> simp

/-- C9: `handleEvents` and `fireEvent` leave `projectToUserMap` as it was. -/
theorem handlers_keep_projectToUserMap (flags : Flags) (out : EndResult) (body : String)
    (w : ResponseWriter) (s : State) :
    (handleEvents flags out body w s).2.projectToUserMap = s.projectToUserMap ∧
    (fireEvent body w s).2.projectToUserMap = s.projectToUserMap := by
  refine ⟨handleEvents_projectToUserMap flags out body w s, ?_⟩
  rw [fireEvent_eq]
  split <;> rfl

theorem validStartup_of_no_dsn (flags : Flags) (fs : String → Except GoError String)
    (s : State) (h : flags.sentryDSN = "") :
    validStartup flags fs s = (false, s.logError [.str "must provide a Sentry DSN"]) := by
  have h0 : (flags.sentryDSN.length == 0) = true := (length_eq_zero_iff _).2 h
  simp [validStartup, h0]

theorem validStartup_of_no_token (flags : Flags) (fs : String → Except GoError String)
    (s : State) (h : flags.sentryDSN ≠ "") (ht : flags.apiToken = "") :
    validStartup flags fs s = (false, s.logError [.str "must provide a Sentry API token"]) := by
  have h0 : ¬ (flags.sentryDSN.length == 0) = true := fun hc => h ((length_eq_zero_iff _).1 hc)
  have h1 : (flags.apiToken.length == 0) = true := (length_eq_zero_iff _).2 ht
  simp [validStartup, h0, h1]

theorem validStartup_of_open_error (flags : Flags) (fs : String → Except GoError String)
    (s : State) (h : flags.sentryDSN ≠ "") (ht : flags.apiToken ≠ "") (err : GoError)
    (hf : fs flags.assignmentMappingsLoc = .error err) :
    validStartup flags fs s =
      (false, State.logError { s with opened := s.opened ++ [flags.assignmentMappingsLoc] }
        [.str "no project -> user mapping: ", .err err]) := by
  have h0 : ¬ (flags.sentryDSN.length == 0) = true := fun hc => h ((length_eq_zero_iff _).1 hc)
  have h1 : ¬ (flags.apiToken.length == 0) = true := fun hc => ht ((length_eq_zero_iff _).1 hc)
  simp [validStartup, h0, h1, hf]

theorem validStartup_of_open (flags : Flags) (fs : String → Except GoError String)
    (s : State) (h : flags.sentryDSN ≠ "") (ht : flags.apiToken ≠ "") (f : String)
    (hf : fs flags.assignmentMappingsLoc = .ok f) :
    validStartup flags fs s =
      if (decodeMap f s.projectToUserMap).2 = none then
        (true, SetDSN flags.sentryDSN
          { s with opened := s.opened ++ [flags.assignmentMappingsLoc],
                   projectToUserMap := (decodeMap f s.projectToUserMap).1 })
      else
        (false, State.logError
          { s with opened := s.opened ++ [flags.assignmentMappingsLoc],
                   projectToUserMap := (decodeMap f s.projectToUserMap).1 }
          [.str "failed to parse project -> user mapping: ", .err GoError.json]) := by
  have h0 : ¬ (flags.sentryDSN.length == 0) = true := fun hc => h ((length_eq_zero_iff _).1 hc)
  have h1 : ¬ (flags.apiToken.length == 0) = true := fun hc => ht ((length_eq_zero_iff _).1 hc)
  simp only [validStartup, h0, h1, hf, Bool.false_eq_true, if_false]
  rcases hd : decodeMap f s.projectToUserMap with ⟨m, _ | e⟩
  · simp
  · have he : e = GoError.json := by
      unfold decodeMap at hd
      split at hd
      · simp at hd; exact hd.2.symm
      · split at hd <;> simp at hd
        exact hd.2.symm
    simp [he]

theorem main_served (flags : Flags) (fs : String → Except GoError String)
    (serveErr : GoError) (s : State) (h : (validStartup flags fs s).2.served = s.served) :
    (main flags fs serveErr s).served =
      s.served ++ (if (validStartup flags fs s).1 = true then [flags.bindAddr] else []) := by
  unfold main
  cases hv : (validStartup flags fs s).1
  · simp [h]
  · simp [State.logError, h]

theorem validStartup_served (flags : Flags) (fs : String → Except GoError String)
    (s : State) : (validStartup flags fs s).2.served = s.served := by
  by_cases h : flags.sentryDSN = ""
  · rw [validStartup_of_no_dsn flags fs s h]; rfl
  · by_cases ht : flags.apiToken = ""
    · rw [validStartup_of_no_token flags fs s h ht]; rfl
    · rcases hf : fs flags.assignmentMappingsLoc with err | f
      · rw [validStartup_of_open_error flags fs s h ht err hf]; rfl
      · rw [validStartup_of_open flags fs s h ht f hf]
        split <;> rfl

/-- C5: `validStartup` returns true exactly when the DSN is not empty, the API
token is not empty, the mapping file opens and its text decodes into the map of
string to string; `main` calls `ListenAndServe` (once, with the bind address)
when `validStartup` returns true and not at all when it returns false. -/
theorem validStartup_true_iff (flags : Flags) (fs : String → Except GoError String)
    (serveErr : GoError) (s : State) :
    ((validStartup flags fs s).1 = true ↔
      flags.sentryDSN ≠ "" ∧ flags.apiToken ≠ "" ∧
      ∃ f, fs flags.assignmentMappingsLoc = .ok f ∧
        (decodeMap f s.projectToUserMap).2 = none) ∧
    (main flags fs serveErr s).served =
      s.served ++ (if (validStartup flags fs s).1 = true then [flags.bindAddr] else []) := by
  refine ⟨?_, main_served flags fs serveErr s (validStartup_served flags fs s)⟩
  by_cases h : flags.sentryDSN = ""
  · rw [validStartup_of_no_dsn flags fs s h]; simp [h]
  · by_cases ht : flags.apiToken = ""
    · rw [validStartup_of_no_token flags fs s h ht]; simp [ht]
    · rcases hf : fs flags.assignmentMappingsLoc with err | f
      · rw [validStartup_of_open_error flags fs s h ht err hf]; simp
      · rw [validStartup_of_open flags fs s h ht f hf]
        by_cases hd : (decodeMap f s.projectToUserMap).2 = none
        · simp [hd, h, ht]
        · simp [hd, h, ht]

/-- C6: with an empty DSN `validStartup` returns false, logs the DSN error alone
and opens no file, whatever the token and the file; with a DSN and an empty token
it returns false, logs the token error alone and opens no file; the mapping file
is opened (once) exactly when DSN and token are both not empty. -/
theorem validStartup_order (flags : Flags) (fs : String → Except GoError String)
    (s : State) :
    (flags.sentryDSN = "" →
      (validStartup flags fs s).1 = false ∧
      (validStartup flags fs s).2.log =
        s.log ++ [{ level := .error, args := [.str "must provide a Sentry DSN"] }] ∧
      (validStartup flags fs s).2.opened = s.opened) ∧
    (flags.sentryDSN ≠ "" → flags.apiToken = "" →
      (validStartup flags fs s).1 = false ∧
      (validStartup flags fs s).2.log =
        s.log ++ [{ level := .error, args := [.str "must provide a Sentry API token"] }] ∧
      (validStartup flags fs s).2.opened = s.opened) ∧
    (validStartup flags fs s).2.opened = s.opened ++
      (if flags.sentryDSN ≠ "" ∧ flags.apiToken ≠ "" then [flags.assignmentMappingsLoc]
        else []) := by
  refine ⟨?_, ?_, ?_⟩
  · intro h
    rw [validStartup_of_no_dsn flags fs s h]
    exact ⟨rfl, rfl, rfl⟩
  · intro h ht
    rw [validStartup_of_no_token flags fs s h ht]
    exact ⟨rfl, rfl, rfl⟩
  · by_cases h : flags.sentryDSN = ""
    · rw [validStartup_of_no_dsn flags fs s h]; simp [h, State.logError]
    · by_cases ht : flags.apiToken = ""
      · rw [validStartup_of_no_token flags fs s h ht]; simp [ht, State.logError]
      · rcases hf : fs flags.assignmentMappingsLoc with err | f
        · rw [validStartup_of_open_error flags fs s h ht err hf]; simp [h, ht, State.logError]
        · rw [validStartup_of_open flags fs s h ht f hf]
          split <;> simp [h, ht, State.logError, SetDSN]

/-- The order of C6 on the default flags, and on flags with a DSN alone. -/
theorem validStartup_order_witness :
    ((validStartup defaultFlags (fun _ => .ok "") State.init).1 = false ∧
      (validStartup defaultFlags (fun _ => .ok "") State.init).2.log =
        [{ level := .error, args := [.str "must provide a Sentry DSN"] }] ∧
      (validStartup defaultFlags (fun _ => .ok "") State.init).2.opened = []) ∧
    ((validStartup { defaultFlags with sentryDSN := "dsn" } (fun _ => .ok "") State.init).1 =
        false ∧
      (validStartup { defaultFlags with sentryDSN := "dsn" } (fun _ => .ok "") State.init).2.log =
        [{ level := .error, args := [.str "must provide a Sentry API token"] }] ∧
      (validStartup { defaultFlags with sentryDSN := "dsn" } (fun _ => .ok "")
        State.init).2.opened = []) :=
  ⟨(validStartup_order defaultFlags (fun _ => .ok "") State.init).1 rfl,
   (validStartup_order { defaultFlags with sentryDSN := "dsn" } (fun _ => .ok "")
      State.init).2.1 (by decide) rfl⟩

theorem lex_append_of_lexRun (pre rest : List Char) :
    ∀ (st st' : LexState) (out : List Tok), lexRun st pre = (out, some st') →
      lex st (pre ++ rest) = out ++ lex st' rest := by
  induction pre with
  | nil =>
      intro st st' out h
      simp [lexRun] at h
      obtain ⟨h1, h2⟩ := h
      subst h1; subst h2
      simp
  | cons c cs ih =>
      intro st st' out h
      simp only [lexRun] at h
      show lex st (c :: (cs ++ rest)) = out ++ lex st' rest
      simp only [lex]
      rcases hs : lexStep st c with ⟨o, _ | st1⟩
      · rw [hs] at h; simp at h
      · rw [hs] at h
        simp only [Prod.mk.injEq] at h
        obtain ⟨h1, h2⟩ := h
        rcases hr : lexRun st1 cs with ⟨o2, st2⟩
        rw [hr] at h1 h2
        simp only at h1 h2
        subst h1; subst h2
        simp only [List.append_assoc]
        rw [ih st1 st' o2 hr]

theorem lexRun_plain (a : List Char)
    (h : ∀ c ∈ a, 32 ≤ c.toNat ∧ c.toNat ≠ 34 ∧ c.toNat ≠ 92) :
    ∀ acc : List StrItem,
      lexRun (.inStr acc) a = ([], some (.inStr (acc ++ a.map StrItem.chr))) := by
  induction a with
  | nil => intro acc; simp [lexRun]
  | cons c cs ih =>
      intro acc
      have hc := h c (List.mem_cons_self _ _)
      have hcs : ∀ d ∈ cs, 32 ≤ d.toNat ∧ d.toNat ≠ 34 ∧ d.toNat ≠ 92 :=
        fun d hd => h d (List.mem_cons_of_mem _ hd)
      have h1 : ¬ c.toNat < 32 := by omega
      simp [lexRun, lexStep, hc.2.1, hc.2.2, h1, ih hcs]

theorem unquoteAux_chr (l : List Char) : unquoteAux none (l.map StrItem.chr) = l := by
  induction l with
  | nil => rfl
  | cons c cs ih => simp [unquoteAux, ih]

theorem lex_close (acc : List StrItem) :
    lex (.inStr acc) [Char.ofNat 34, Char.ofNat 125] = [.str (unquote acc), .rbrace] := by
  rfl

theorem lexRun_open :
    lexRun .top "\x7b\"assignedTo\":\"".toList =
      ([.lbrace, .str "assignedTo", .colon], some (.inStr [])) := by
  rfl

theorem parseDocument_assignedTo (a : String)
    (h : ∀ c ∈ a.toList, 32 ≤ c.toNat ∧ c.toNat ≠ 34 ∧ c.toNat ≠ 92) :
    parseDocument ("\x7b\"assignedTo\":\"" ++ a ++ "\"\x7d") =
      some (JValue.obj [("assignedTo", JValue.str a)]) := by
  have hl : ("\x7b\"assignedTo\":\"" ++ a ++ "\"\x7d").toList =
      "\x7b\"assignedTo\":\"".toList ++ (a.toList ++ [Char.ofNat 34, Char.ofNat 125]) := by
    simp [String.toList, String.data_append]
  have h1 := lex_append_of_lexRun "\x7b\"assignedTo\":\"".toList
    (a.toList ++ [Char.ofNat 34, Char.ofNat 125]) _ _ _ lexRun_open
  have h2 := lex_append_of_lexRun a.toList [Char.ofNat 34, Char.ofNat 125] _ _ _
    (lexRun_plain a.toList h [])
  have h3 : unquote (a.toList.map StrItem.chr) = a := by
    unfold unquote
    rw [unquoteAux_chr]
    rfl
  unfold parseDocument
  rw [hl, h1, h2, lex_close]
  simp only [List.nil_append, h3]
  rfl

/-- C4: for an assignee `a` of the map that holds no double quote (34), no
backslash (92) and no control character (below 32), the body handed to the
outbound PUT is a JSON text that is an object with the single field
`assignedTo`, whose value is `a`. -/
theorem handleEvents_body_json (flags : Flags) (out : EndResult) (body : String)
    (w : ResponseWriter) (s : State) (i : IssueInfo) (a : String)
    (hdec : decodeIssueInfo body { ID := "", Project := "" } = (i, none))
    (hmap : s.projectToUserMap.lookup i.Project = some a)
    (hplain : ∀ c ∈ a.toList, 32 ≤ c.toNat ∧ c.toNat ≠ 34 ∧ c.toNat ≠ 92) :
    ((handleEvents flags out body w s).2.requests.drop s.requests.length).map
        (fun r => parseDocument r.body) =
      [some (JValue.obj [("assignedTo", JValue.str a)])] := by
  rw [handleEvents_of_hit flags out body w s i a hdec (mapIndex_of_lookup _ _ _ hmap)]
  simp [assignRequest, parseDocument_assignedTo a hplain]

/-- The body of C4 on the example body: the assignee is plain text. -/
theorem handleEvents_body_json_witness :
    ((handleEvents exampleFlags ⟨⟨200⟩, []⟩ exampleBody ResponseWriter.fresh
        exampleState).2.requests.drop exampleState.requests.length).map
        (fun r => parseDocument r.body) =
      [some (JValue.obj [("assignedTo", JValue.str "name@domain.com")])] :=
  handleEvents_body_json exampleFlags ⟨⟨200⟩, []⟩ exampleBody ResponseWriter.fresh exampleState
    { ID := "42", Project := "sentry-bot" } "name@domain.com" (by decide) (by decide)
    (by decide)

/-- C4, as stated, fails: with an assignee that is one double quote, one
backslash or one line feed, the body handed to the outbound PUT is not a JSON
text (and the decoder reads no value from it). -/
theorem handleEvents_body_not_json :
    (handleEvents exampleFlags ⟨⟨200⟩, []⟩ exampleBody ResponseWriter.fresh
        (stateAssigning "\"")).2.requests.map
      (fun r => (r.body, (parseDocument r.body).isSome, (readValue r.body).isSome)) =
      [("\x7b\"assignedTo\":\"\"\"\x7d", false, false)] ∧
    (handleEvents exampleFlags ⟨⟨200⟩, []⟩ exampleBody ResponseWriter.fresh
        (stateAssigning "\\")).2.requests.map
      (fun r => (r.body, (parseDocument r.body).isSome, (readValue r.body).isSome)) =
      [("\x7b\"assignedTo\":\"\\\"\x7d", false, false)] ∧
    (handleEvents exampleFlags ⟨⟨200⟩, []⟩ exampleBody ResponseWriter.fresh
        (stateAssigning "\n")).2.requests.map
      (fun r => (r.body, (parseDocument r.body).isSome, (readValue r.body).isSome)) =
      [("\x7b\"assignedTo\":\"\n\"\x7d", false, false)] := by
  refine ⟨by decide, by decide, by decide⟩

end SentryAssign
